import Mathlib

/-!
Formal model of the wyoming-azure-speech session bridge.

The definitions below are a shallow embedding of the Python sources
`transcriber.py`, `synthesizer.py`, `speech_service.py` and `handler.py`.
Engine-side behaviour (the Azure speech SDK, which fires callbacks on its own
threads) is modelled by explicit traces of callback events applied to the
session state; asyncio suspension is modelled by `Option` (`none` means the
awaiting task is still suspended); a raised exception is modelled by
`Except.error`, carrying which exception was raised.
-/

namespace WyomingAzureSpeech

/-- Raw audio payloads (Python `bytes`), abstracted as lists of byte values. -/
abbrev Bytes := List Nat

/-! ## Transcriber (`transcriber.py`) -/

/-- The mutable state of a `Transcriber` instance: the audio pushed into
`self._stream`, whether continuous recognition was started, the accumulated
`self._recognized_statements` list, and the `self._recognition_finished`
asyncio `Event` (a single-fire flag, modelled as a `Bool`). -/
structure TranscriberState where
  language : String
  stream : List Bytes
  started : Bool
  recognized_statements : List String
  recognition_finished : Bool
deriving Repr, DecidableEq

/-- `Transcriber.__init__(key, region, language)`; `key` and `region` only
configure the external engine handle and leave no trace in the model state. -/
def Transcriber.init (key region language : String) : TranscriberState :=
  { language := language
    stream := []
    started := false
    recognized_statements := []
    recognition_finished := false }

/-- The callback notifications the engine can deliver to a `Transcriber`
(the handlers connected in `Transcriber.__init__`). -/
inductive RecognizerCallback where
  | session_started
  | session_stopped
  | recognizing (text : String)
  | recognized (text : String)
  | canceled
deriving Repr, DecidableEq

/-- `Transcriber._recognized`: append `evt.result.text` to
`self._recognized_statements`, then set `self._recognition_finished`. -/
def Transcriber._recognized (text : String) (s : TranscriberState) : TranscriberState :=
  { s with
    recognized_statements := s.recognized_statements ++ [text]
    recognition_finished := true }

/-- `Transcriber._canceled`: set `self._recognition_finished` only. -/
def Transcriber._canceled (s : TranscriberState) : TranscriberState :=
  { s with recognition_finished := true }

/-- Dispatch one engine callback to the handler registered for it;
`_session_started`, `_session_stopped` and `_recognizing` only log. -/
def Transcriber.dispatch : RecognizerCallback → TranscriberState → TranscriberState
  | .session_started, s => s
  | .session_stopped, s => s
  | .recognizing _, s => s
  | .recognized text, s => Transcriber._recognized text s
  | .canceled, s => Transcriber._canceled s

/-- Apply a whole trace of engine callbacks, in arrival order. -/
def Transcriber.run (trace : List RecognizerCallback) (s : TranscriberState) :
    TranscriberState :=
  trace.foldl (fun st e => Transcriber.dispatch e st) s

/-- `Transcriber.push_sample`: write one chunk into the push audio stream. -/
def Transcriber.push_sample (sample : Bytes) (s : TranscriberState) : TranscriberState :=
  { s with stream := s.stream ++ [sample] }

/-- `Transcriber.start`: `start_continuous_recognition` on the engine. -/
def Transcriber.start (s : TranscriberState) : TranscriberState :=
  { s with started := true }

/-- `Transcriber.stop`: `stop_continuous_recognition` is an engine-side call
and does not touch the session state itself. -/
def Transcriber.stop (s : TranscriberState) : TranscriberState := s

/-- `Transcriber.recognized_statement`: await `self._recognition_finished`,
then return the space-join of `self._recognized_statements`.  `none` models
an await that is still suspended because the event was never set. -/
def Transcriber.recognized_statement (s : TranscriberState) : Option String :=
  if s.recognition_finished then
    some (String.intercalate " " s.recognized_statements)
  else
    none

/-- The texts of the `recognized` callbacks of a trace, in arrival order. -/
def recognizedTexts : List RecognizerCallback → List String
  | [] => []
  | .recognized text :: rest => text :: recognizedTexts rest
  | .session_started :: rest => recognizedTexts rest
  | .session_stopped :: rest => recognizedTexts rest
  | .recognizing _ :: rest => recognizedTexts rest
  | .canceled :: rest => recognizedTexts rest

/-- Whether a callback sets the `_recognition_finished` event
(`_recognized` and `_canceled` do; the logging-only handlers do not). -/
def completesRecognition : RecognizerCallback → Bool
  | .recognized _ => true
  | .canceled => true
  | _ => false

/-! ## Synthesizer (`synthesizer.py`) -/

/-- State of `AioPushAudioOutputStreamCallback`: the contents of the
`self._audio_data` asyncio queue, in FIFO order.  `some chunk` is an audio
chunk enqueued by `write`; `none` is the terminal marker enqueued by
`close`. -/
structure AioPushAudioOutputStreamCallback where
  audio_data : List (Option Bytes)
deriving Repr, DecidableEq

/-- `AioPushAudioOutputStreamCallback.__init__`: an empty queue. -/
def AioPushAudioOutputStreamCallback.init : AioPushAudioOutputStreamCallback :=
  { audio_data := [] }

/-- `write`: enqueue a copy of the audio buffer. -/
def AioPushAudioOutputStreamCallback.write (chunk : Bytes)
    (s : AioPushAudioOutputStreamCallback) : AioPushAudioOutputStreamCallback :=
  { audio_data := s.audio_data ++ [some chunk] }

/-- `close`: enqueue the `None` terminal marker. -/
def AioPushAudioOutputStreamCallback.close (s : AioPushAudioOutputStreamCallback) :
    AioPushAudioOutputStreamCallback :=
  { audio_data := s.audio_data ++ [none] }

/-- The consumer side (`read` / `__anext__` driven by `async for`): drain the
queue until the terminal marker, collecting the chunks in order.  `none`
models a consumer still suspended on `await self._audio_data.get()` because
no terminal marker was ever enqueued. -/
def AioPushAudioOutputStreamCallback.readAll : List (Option Bytes) → Option (List Bytes)
  | [] => none
  | none :: _ => some []
  | some chunk :: rest =>
      (AioPushAudioOutputStreamCallback.readAll rest).map (fun cs => chunk :: cs)

/-- The callback notifications the engine can deliver to a `Synthesizer`
(its push stream plus the handlers connected in `Synthesizer.__init__`). -/
inductive SynthCallback where
  | started
  | write (chunk : Bytes)
  | completed
  | canceled
deriving Repr, DecidableEq

/-- Dispatch one synthesis engine callback: `write` lands on the stream
callback; `_completed` and `_canceled` both call `self._stream_callback.close()`
(`_canceled` additionally logs the cancellation details, and neither raises);
`_started` only logs. -/
def Synthesizer.dispatch :
    SynthCallback → AioPushAudioOutputStreamCallback → AioPushAudioOutputStreamCallback
  | .started, s => s
  | .write chunk, s => s.write chunk
  | .completed, s => s.close
  | .canceled, s => s.close

/-- Apply a whole trace of synthesis engine callbacks, in arrival order. -/
def Synthesizer.runCallbacks (trace : List SynthCallback)
    (s : AioPushAudioOutputStreamCallback) : AioPushAudioOutputStreamCallback :=
  trace.foldl (fun st e => Synthesizer.dispatch e st) s

/-- State of a `Synthesizer` instance visible to the handler: the voice it
was created with (the engine handle and stream callback are external). -/
structure SynthesizerState where
  voice : String
deriving Repr, DecidableEq

/-! ## SpeechService (`speech_service.py`) -/

/-- One entry of the JSON voice list returned by the voices endpoint. -/
structure VoiceInfo where
  Locale : String
  ShortName : String
  DisplayName : String
deriving Repr, DecidableEq

/-- State of a `SpeechService` instance: the constructor arguments, the two
`cached_property` caches (`none` = never populated successfully), the
`self._supported_voices` attribute (set only as a side effect of a successful
`synthesization_voices` population), and counters of outbound HTTP queries
performed so far on each endpoint. -/
structure SpeechServiceState where
  key : String
  region : String
  default_transcription_language : String
  default_voice : String
  languages_cache : Option (List String)
  voices_cache : Option (List (String × List VoiceInfo))
  supported_voices : Option (List String)
  language_queries : Nat
  voice_queries : Nat
deriving Repr, DecidableEq

/-- `SpeechService.__init__`; an omitted argument (`none`) takes the Python
default value from the constructor signature. -/
def SpeechService.init (key region : String)
    (transcription_language default_voice : Option String) : SpeechServiceState :=
  { key := key
    region := region
    default_transcription_language := transcription_language.getD "en-US"
    default_voice := default_voice.getD "en-US-AvaMultilingualNeural"
    languages_cache := none
    voices_cache := none
    supported_voices := none
    language_queries := 0
    voice_queries := 0 }

/-- `SpeechService.transcription_languages` (a `cached_property`): on a cache
hit return the memoized list with no outbound query; on a miss perform one
outbound query (`lq n` is the outcome of the `n`-th query to the locales
endpoint, `Except.error` modelling a non-success HTTP status whose message is
raised as `RuntimeError`).  `functools.cached_property` stores the value only
when the underlying call returns, so a raising call caches nothing. -/
def transcription_languages_access (lq : Nat → Except String (List String))
    (svc : SpeechServiceState) : Except String (List String) × SpeechServiceState :=
  match svc.languages_cache with
  | some v => (Except.ok v, svc)
  | none =>
      match lq svc.language_queries with
      | Except.error e =>
          (Except.error e, { svc with language_queries := svc.language_queries + 1 })
      | Except.ok v =>
          (Except.ok v,
            { svc with
              languages_cache := some v
              language_queries := svc.language_queries + 1 })

/-- `itertools.groupby` over a list of voices keyed by `Locale`: groups
consecutive runs of equal locales. -/
def groupByLocale : List VoiceInfo → List (String × List VoiceInfo)
  | [] => []
  | v :: rest =>
      match groupByLocale rest with
      | (loc, vs) :: tail =>
          if v.Locale = loc then (loc, v :: vs) :: tail
          else (v.Locale, [v]) :: (loc, vs) :: tail
      | [] => [(v.Locale, [v])]

/-- `SpeechService.synthesization_voices` (a `cached_property`): on a miss,
one outbound query to the voice-list endpoint (`vq n` is the outcome of the
`n`-th query); on success the JSON list is sorted by `Locale` (a stable sort,
like Python's `sorted`), `self._supported_voices` is set to the short names,
and the locale-grouped mapping is memoized.  A non-success status raises
`RuntimeError` and caches nothing. -/
def synthesization_voices_access (vq : Nat → Except String (List VoiceInfo))
    (svc : SpeechServiceState) :
    Except String (List (String × List VoiceInfo)) × SpeechServiceState :=
  match svc.voices_cache with
  | some v => (Except.ok v, svc)
  | none =>
      match vq svc.voice_queries with
      | Except.error e =>
          (Except.error e, { svc with voice_queries := svc.voice_queries + 1 })
      | Except.ok json =>
          let sorted := json.mergeSort (fun a b => decide (a.Locale ≤ b.Locale))
          let grouped := groupByLocale sorted
          (Except.ok grouped,
            { svc with
              voices_cache := some grouped
              supported_voices := some (sorted.map (fun v => v.ShortName))
              voice_queries := svc.voice_queries + 1 })

/-- The exceptions the `SpeechService` layer can raise: `RuntimeError` from a
failed catalog query, `ValueError` for an unsupported language or voice, and
`AttributeError` when `create_synthesizer` reads `self._supported_voices`
before any successful voice-catalog population. -/
inductive ServiceError where
  | catalogUnavailable (msg : String)
  | unsupportedLanguage (language : String)
  | unsupportedVoice (voice : String)
  | attributeError
deriving Repr, DecidableEq

/-- `SpeechService.create_transcriber(language)`: substitute the configured
default when the language is omitted, validate it against the
`transcription_languages` cached property (which may itself perform the one
population query), and on success construct a `Transcriber`. -/
def create_transcriber (lq : Nat → Except String (List String))
    (svc : SpeechServiceState) (language : Option String) :
    Except ServiceError TranscriberState × SpeechServiceState :=
  let lang := language.getD svc.default_transcription_language
  match transcription_languages_access lq svc with
  | (Except.error e, svc1) => (Except.error (ServiceError.catalogUnavailable e), svc1)
  | (Except.ok langs, svc1) =>
      if lang ∈ langs then
        (Except.ok (Transcriber.init svc.key svc.region lang), svc1)
      else
        (Except.error (ServiceError.unsupportedLanguage lang), svc1)

/-- `SpeechService.create_synthesizer(voice)`: substitute the configured
default when the voice is omitted and validate it against
`self._supported_voices` (the plain attribute, not the cached property:
reading it before voice-catalog population raises `AttributeError`). -/
def create_synthesizer (svc : SpeechServiceState) (voice : Option String) :
    Except ServiceError SynthesizerState :=
  let v := voice.getD svc.default_voice
  match svc.supported_voices with
  | none => Except.error ServiceError.attributeError
  | some vs =>
      if v ∈ vs then Except.ok { voice := v }
      else Except.error (ServiceError.unsupportedVoice v)

/-! ## Event handler (`handler.py`) -/

/-- Per-connection state of `AzureSpeechEventHandler`: the
`self._transcriber` field (`none` = Idle, `some` = a session is armed or
active). -/
structure HandlerState where
  transcriber : Option TranscriberState
deriving Repr, DecidableEq

/-- The exceptions a handler method can raise out of `handle_event`:
`RuntimeError` for a protocol violation, or an exception escaping from the
`SpeechService` layer. -/
inductive HandlerError where
  | protocolViolation (msg : String)
  | serviceError (e : ServiceError)
deriving Repr, DecidableEq

/-- The protocol events the handler writes back to the client. -/
inductive OutEvent where
  | transcript (text : String)
  | audioStart (rate width channels : Nat)
  | audioChunk (audio : Bytes) (rate width channels : Nat)
  | audioStop
  | info
deriving Repr, DecidableEq

/-- Modelled from the spec: the Server Loop / transport layer is an external
collaborator (out of scope of `src/`), and §7 of the spec fixes its error
taxonomy — protocol violations are connection-fatal; `UnsupportedLanguage`
and `UnsupportedVoice` are request-level failures that keep the connection
alive; catalog unavailability is fatal. -/
def connectionFatal : HandlerError → Bool
  | .protocolViolation _ => true
  | .serviceError (ServiceError.unsupportedLanguage _) => false
  | .serviceError (ServiceError.unsupportedVoice _) => false
  | .serviceError (ServiceError.catalogUnavailable _) => true
  | .serviceError ServiceError.attributeError => true

/-- `AzureSpeechEventHandler._audio_chunk`: raise `RuntimeError` when no
transcriber is armed, otherwise push the chunk; returns `True`. -/
def _audio_chunk (audio : Bytes) (h : HandlerState) :
    HandlerState × Except HandlerError Bool :=
  match h.transcriber with
  | none =>
      (h, Except.error (HandlerError.protocolViolation
        "Got AudioChunk without Transcribe event"))
  | some t => ({ transcriber := some (Transcriber.push_sample audio t) }, Except.ok true)

/-- `AzureSpeechEventHandler._audio_start`: raise `RuntimeError` when no
transcriber is armed, otherwise start recognition; returns `True`. -/
def _audio_start (h : HandlerState) : HandlerState × Except HandlerError Bool :=
  match h.transcriber with
  | none =>
      (h, Except.error (HandlerError.protocolViolation
        "Got AudioStart without Transcribe event"))
  | some t => ({ transcriber := some (Transcriber.start t) }, Except.ok true)

/-- `AzureSpeechEventHandler._audio_stop`: raise `RuntimeError` when no
transcriber is armed; otherwise `stop()`, await `recognized_statement`
(`Except.ok none` = still suspended on the await), then write one
`Transcript` event, discard the transcriber and return `False`. -/
def _audio_stop (h : HandlerState) :
    HandlerState × Except HandlerError (Option (List OutEvent × Bool)) :=
  match h.transcriber with
  | none =>
      (h, Except.error (HandlerError.protocolViolation
        "Got AudioStop without Transcribe event"))
  | some t =>
      match Transcriber.recognized_statement (Transcriber.stop t) with
      | none => (h, Except.ok none)
      | some text =>
          ({ transcriber := none }, Except.ok (some ([OutEvent.transcript text], false)))

/-- `AzureSpeechEventHandler._transcribe`: create a transcriber for the
requested (or default) language and store it in `self._transcriber`; an
exception from `create_transcriber` propagates before the assignment, leaving
the field unchanged.  Returns `True`. -/
def _transcribe (lq : Nat → Except String (List String)) (svc : SpeechServiceState)
    (h : HandlerState) (language : Option String) :
    HandlerState × SpeechServiceState × Except HandlerError Bool :=
  match create_transcriber lq svc language with
  | (Except.error e, svc1) => (h, svc1, Except.error (HandlerError.serviceError e))
  | (Except.ok t, svc1) => ({ transcriber := some t }, svc1, Except.ok true)

/-- `AzureSpeechEventHandler._synthesize`: create a synthesizer for the
requested (or default) voice (an exception propagates before anything is
written), start synthesis of `text` on the engine, then write one
`AudioStart(16000, 2, 1)`, one `AudioChunk` per chunk produced by the
engine's stream callback in order, and one `AudioStop`.  `engineTrace` is the
trace of engine callbacks for this run; `Except.ok none` models a consumer
still suspended because the engine never closed the stream.  Never touches
`self._transcriber`.  Returns `True`. -/
def _synthesize (svc : SpeechServiceState) (h : HandlerState) (text : String)
    (voice : Option String) (engineTrace : List SynthCallback) :
    HandlerState × Except HandlerError (Option (List OutEvent × Bool)) :=
  match create_synthesizer svc voice with
  | Except.error e => (h, Except.error (HandlerError.serviceError e))
  | Except.ok _syn =>
      let stream := Synthesizer.runCallbacks engineTrace AioPushAudioOutputStreamCallback.init
      match AioPushAudioOutputStreamCallback.readAll stream.audio_data with
      | none => (h, Except.ok none)
      | some chunks =>
          (h, Except.ok (some
            (OutEvent.audioStart 16000 2 1 ::
              chunks.map (fun c => OutEvent.audioChunk c 16000 2 1) ++ [OutEvent.audioStop],
             true)))

/-- `AzureSpeechEventHandler._describe`: write the cached `Info` event;
returns `True`. -/
def _describe (h : HandlerState) :
    HandlerState × Except HandlerError (List OutEvent × Bool) :=
  (h, Except.ok ([OutEvent.info], true))

/-! ## Helper lemmas about the transcriber bridge -/

theorem Transcriber.run_cons (e : RecognizerCallback) (trace : List RecognizerCallback)
    (s : TranscriberState) :
    Transcriber.run (e :: trace) s = Transcriber.run trace (Transcriber.dispatch e s) := rfl

theorem Transcriber.run_append (t1 t2 : List RecognizerCallback) (s : TranscriberState) :
    Transcriber.run (t1 ++ t2) s = Transcriber.run t2 (Transcriber.run t1 s) :=
  List.foldl_append _ _ _ _

theorem Transcriber.run_statements (trace : List RecognizerCallback) :
    ∀ s : TranscriberState,
      (Transcriber.run trace s).recognized_statements
        = s.recognized_statements ++ recognizedTexts trace := by
  induction trace with
  | nil => intro s; simp [Transcriber.run, recognizedTexts]
  | cons e rest ih =>
      intro s
      rw [Transcriber.run_cons, ih]
      cases e <;>
        simp [Transcriber.dispatch, Transcriber._recognized, Transcriber._canceled,
          recognizedTexts]

theorem Transcriber.dispatch_finished_mono (e : RecognizerCallback) (s : TranscriberState)
    (h : s.recognition_finished = true) :
    (Transcriber.dispatch e s).recognition_finished = true := by
  cases e <;>
    simp [Transcriber.dispatch, Transcriber._recognized, Transcriber._canceled, h]

theorem Transcriber.run_finished_mono (trace : List RecognizerCallback) :
    ∀ s : TranscriberState, s.recognition_finished = true →
      (Transcriber.run trace s).recognition_finished = true := by
  induction trace with
  | nil => intro s h; exact h
  | cons e rest ih =>
      intro s h
      rw [Transcriber.run_cons]
      exact ih _ (Transcriber.dispatch_finished_mono e s h)

theorem Transcriber.run_finished_of_completes (trace : List RecognizerCallback) :
    ∀ s : TranscriberState, (∃ e ∈ trace, completesRecognition e = true) →
      (Transcriber.run trace s).recognition_finished = true := by
  induction trace with
  | nil => intro s h; obtain ⟨e, he, _⟩ := h; exact absurd he (List.not_mem_nil e)
  | cons e rest ih =>
      intro s h
      obtain ⟨f, hf, hcf⟩ := h
      rw [Transcriber.run_cons]
      rcases List.mem_cons.mp hf with hf | hf
      · subst hf
        apply Transcriber.run_finished_mono
        cases f <;> simp_all [completesRecognition, Transcriber.dispatch,
          Transcriber._recognized, Transcriber._canceled]
      · exact ih _ ⟨f, hf, hcf⟩

/-! ## Claim theorems -/

/-- C1: for every transcription run, the text carried by the `Transcript`
event emitted on `AudioStop` equals the space-joined concatenation, in
callback-arrival order, of the texts of all `recognized` engine events
observed before the result is consumed; multiple `recognized` events are
accumulated in order, not overwritten. -/
theorem c1_transcript_joins_recognized_texts (key region lang : String)
    (trace : List RecognizerCallback) (h : HandlerState)
    (ht : h.transcriber = some (Transcriber.run trace (Transcriber.init key region lang)))
    (hc : ∃ e ∈ trace, completesRecognition e = true) :
    _audio_stop h
      = ({ transcriber := none },
         Except.ok (some
           ([OutEvent.transcript (String.intercalate " " (recognizedTexts trace))],
            false))) := by
  have hfin := Transcriber.run_finished_of_completes trace
    (Transcriber.init key region lang) hc
  have hst := Transcriber.run_statements trace (Transcriber.init key region lang)
  rw [show (Transcriber.init key region lang).recognized_statements = [] from rfl,
    List.nil_append] at hst
  simp [_audio_stop, ht, Transcriber.stop, Transcriber.recognized_statement, hfin, hst]

/-- Witness for C1: two recognized fragments yield their space-joined text. -/
theorem c1_transcript_joins_recognized_texts_witness :
    _audio_stop
      { transcriber := some (Transcriber.run
          [RecognizerCallback.recognized "hello", RecognizerCallback.recognized "world"]
          (Transcriber.init "k" "westeurope" "en-US")) }
      = ({ transcriber := none },
         Except.ok (some ([OutEvent.transcript "hello world"], false))) :=
  c1_transcript_joins_recognized_texts "k" "westeurope" "en-US"
    [RecognizerCallback.recognized "hello", RecognizerCallback.recognized "world"]
    _ rfl ⟨RecognizerCallback.recognized "hello", by simp, rfl⟩

/-- C2: if the engine reports cancellation and no `recognized` event is
observed, awaiting the transcription result resolves (does not stay
suspended, does not raise) with the empty string: the cancellation callback
only sets the completion event. -/
theorem c2_cancellation_yields_empty_string (key region lang : String)
    (trace : List RecognizerCallback)
    (hno : recognizedTexts trace = [])
    (hc : RecognizerCallback.canceled ∈ trace) :
    Transcriber.recognized_statement
        (Transcriber.run trace (Transcriber.init key region lang))
      = some "" := by
  have hfin := Transcriber.run_finished_of_completes trace
    (Transcriber.init key region lang) ⟨RecognizerCallback.canceled, hc, rfl⟩
  have hst := Transcriber.run_statements trace (Transcriber.init key region lang)
  rw [show (Transcriber.init key region lang).recognized_statements = [] from rfl,
    List.nil_append, hno] at hst
  simp only [Transcriber.recognized_statement, hfin, hst, if_true]
  rfl

/-- Witness for C2: a lone cancellation resolves the await with `""`. -/
theorem c2_cancellation_yields_empty_string_witness :
    Transcriber.recognized_statement
        (Transcriber.run [RecognizerCallback.canceled]
          (Transcriber.init "k" "westeurope" "en-US"))
      = some "" :=
  c2_cancellation_yields_empty_string "k" "westeurope" "en-US"
    [RecognizerCallback.canceled] rfl (by simp)

/-- C7: the completion signal is single-fire and the pending await is always
resolved: whenever the callback trace contains at least one completing
notification (`recognized` or `canceled`), in any order, awaiting
`recognized_statement` resolves; and once set by whichever callback ran
first, the signal stays set under any further callbacks. -/
theorem c7_completion_signal_single_fire (key region lang : String)
    (trace : List RecognizerCallback)
    (hc : ∃ e ∈ trace, completesRecognition e = true) :
    (Transcriber.recognized_statement
        (Transcriber.run trace (Transcriber.init key region lang))).isSome = true
    ∧ ∀ rest : List RecognizerCallback,
        (Transcriber.run (trace ++ rest)
          (Transcriber.init key region lang)).recognition_finished = true := by
  have hfin := Transcriber.run_finished_of_completes trace
    (Transcriber.init key region lang) hc
  constructor
  · simp [Transcriber.recognized_statement, hfin]
  · intro rest
    rw [Transcriber.run_append]
    exact Transcriber.run_finished_mono rest _ hfin

/-- Witness for C7: a cancellation arriving first resolves the await, and a
late `recognized` callback cannot unset the signal. -/
theorem c7_completion_signal_single_fire_witness :
    (Transcriber.recognized_statement
        (Transcriber.run [RecognizerCallback.canceled]
          (Transcriber.init "k" "westeurope" "en-US"))).isSome = true
    ∧ (Transcriber.run
        ([RecognizerCallback.canceled] ++ [RecognizerCallback.recognized "late"])
        (Transcriber.init "k" "westeurope" "en-US")).recognition_finished = true := by
  have h := c7_completion_signal_single_fire "k" "westeurope" "en-US"
    [RecognizerCallback.canceled] ⟨RecognizerCallback.canceled, by simp, rfl⟩
  exact ⟨h.1, h.2 [RecognizerCallback.recognized "late"]⟩

/-- C3: in the Idle state (no transcriber armed) an `AudioChunk`,
`AudioStart` or `AudioStop` event makes the handler raise `RuntimeError`
without processing the event, and a protocol violation is connection-fatal
(per the spec's transport model). -/
theorem c3_idle_audio_events_are_fatal (h : HandlerState) (audio : Bytes)
    (hi : h.transcriber = none) :
    _audio_chunk audio h
      = (h, Except.error (HandlerError.protocolViolation
          "Got AudioChunk without Transcribe event"))
    ∧ _audio_start h
      = (h, Except.error (HandlerError.protocolViolation
          "Got AudioStart without Transcribe event"))
    ∧ _audio_stop h
      = (h, Except.error (HandlerError.protocolViolation
          "Got AudioStop without Transcribe event"))
    ∧ ∀ msg : String, connectionFatal (HandlerError.protocolViolation msg) = true := by
  refine ⟨?_, ?_, ?_, fun msg => rfl⟩
  · simp [_audio_chunk, hi]
  · simp [_audio_start, hi]
  · simp [_audio_stop, hi]

/-- Witness for C3: the three audio events on a fresh Idle connection. -/
theorem c3_idle_audio_events_are_fatal_witness :
    _audio_chunk [] { transcriber := none }
      = ({ transcriber := none }, Except.error (HandlerError.protocolViolation
          "Got AudioChunk without Transcribe event"))
    ∧ _audio_start { transcriber := none }
      = ({ transcriber := none }, Except.error (HandlerError.protocolViolation
          "Got AudioStart without Transcribe event"))
    ∧ _audio_stop { transcriber := none }
      = ({ transcriber := none }, Except.error (HandlerError.protocolViolation
          "Got AudioStop without Transcribe event"))
    ∧ ∀ msg : String, connectionFatal (HandlerError.protocolViolation msg) = true :=
  c3_idle_audio_events_are_fatal { transcriber := none } [] rfl

/-- C8: `AudioStop` with an active session whose completion event has fired
stops the session, consumes its result, emits exactly one `Transcript`
carrying it, discards the session (back to Idle), and returns `False` —
while every other handler that completes normally returns `True`. -/
theorem c8_audio_stop_full_cycle (h : HandlerState) (t : TranscriberState)
    (ht : h.transcriber = some t) (hfin : t.recognition_finished = true) :
    _audio_stop h
      = ({ transcriber := none },
         Except.ok (some
           ([OutEvent.transcript (String.intercalate " " t.recognized_statements)],
            false)))
    ∧ (∀ (audio : Bytes) (h1 h2 : HandlerState) (b : Bool),
        _audio_chunk audio h1 = (h2, Except.ok b) → b = true)
    ∧ (∀ (h1 h2 : HandlerState) (b : Bool),
        _audio_start h1 = (h2, Except.ok b) → b = true)
    ∧ (∀ (lq : Nat → Except String (List String)) (svc svc1 : SpeechServiceState)
        (h1 h2 : HandlerState) (lang : Option String) (b : Bool),
        _transcribe lq svc h1 lang = (h2, svc1, Except.ok b) → b = true)
    ∧ (∀ (svc : SpeechServiceState) (h1 h2 : HandlerState) (text : String)
        (voice : Option String) (tr : List SynthCallback) (outs : List OutEvent)
        (b : Bool),
        _synthesize svc h1 text voice tr = (h2, Except.ok (some (outs, b))) → b = true)
    ∧ (∀ (h1 h2 : HandlerState) (outs : List OutEvent) (b : Bool),
        _describe h1 = (h2, Except.ok (outs, b)) → b = true) := by
  refine ⟨?_, ?_, ?_, ?_, ?_, ?_⟩
  · simp [_audio_stop, ht, Transcriber.stop, Transcriber.recognized_statement, hfin]
  · intro audio h1 h2 b heq
    cases hc : h1.transcriber <;> simp [_audio_chunk, hc] at heq
    exact heq.2
  · intro h1 h2 b heq
    cases hc : h1.transcriber <;> simp [_audio_start, hc] at heq
    exact heq.2
  · intro lq svc svc1 h1 h2 lang b heq
    rcases hct : create_transcriber lq svc lang with ⟨res, svc2⟩
    cases res <;> simp [_transcribe, hct] at heq
    exact heq.2.2
  · intro svc h1 h2 text voice tr outs b heq
    cases hcs : create_synthesizer svc voice with
    | error e => simp [_synthesize, hcs] at heq
    | ok syn =>
        cases hra : AioPushAudioOutputStreamCallback.readAll
            (Synthesizer.runCallbacks tr AioPushAudioOutputStreamCallback.init).audio_data with
        | none => simp [_synthesize, hcs, hra] at heq
        | some chunks =>
            simp [_synthesize, hcs, hra] at heq
            exact heq.2.2
  · intro h1 h2 outs b heq
    simp [_describe] at heq
    exact heq.2.2

/-- Witness for C8: one recognized fragment, completion fired. -/
theorem c8_audio_stop_full_cycle_witness :
    _audio_stop ⟨some ⟨"en-US", [], true, ["hi"], true⟩⟩
      = (⟨none⟩, Except.ok (some ([OutEvent.transcript "hi"], false))) :=
  (c8_audio_stop_full_cycle ⟨some ⟨"en-US", [], true, ["hi"], true⟩⟩ _ rfl rfl).1

/-- C9: handling a `Synthesize` event never modifies the connection's
transcription state, whatever the voice, engine trace or prior state. -/
theorem c9_synthesize_preserves_transcriber (svc : SpeechServiceState) (h : HandlerState)
    (text : String) (voice : Option String) (engineTrace : List SynthCallback) :
    (_synthesize svc h text voice engineTrace).1.transcriber = h.transcriber := by
  cases hcs : create_synthesizer svc voice with
  | error e => simp [_synthesize, hcs]
  | ok syn =>
      cases hra : AioPushAudioOutputStreamCallback.readAll
          (Synthesizer.runCallbacks engineTrace
            AioPushAudioOutputStreamCallback.init).audio_data with
      | none => simp [_synthesize, hcs, hra]
      | some chunks => simp [_synthesize, hcs, hra]

/-- C4: a `Transcribe` event with a language absent from the populated
catalog raises `ValueError` (unsupported language), arms no session — the
`self._transcriber` field and the service state are returned unchanged — and
the failure is request-level, not connection-fatal (per the spec's transport
model). -/
theorem c4_unsupported_language_is_request_level (lq : Nat → Except String (List String))
    (svc : SpeechServiceState) (h : HandlerState) (lang : String) (langs : List String)
    (hcache : svc.languages_cache = some langs) (hnotin : lang ∉ langs) :
    _transcribe lq svc h (some lang)
      = (h, svc, Except.error (HandlerError.serviceError
          (ServiceError.unsupportedLanguage lang)))
    ∧ connectionFatal
        (HandlerError.serviceError (ServiceError.unsupportedLanguage lang)) = false := by
  refine ⟨?_, rfl⟩
  simp [_transcribe, create_transcriber, transcription_languages_access, hcache, hnotin]

/-- Witness for C4: requesting `xx-XX` against a catalog holding only
`en-US`. -/
theorem c4_unsupported_language_is_request_level_witness :
    _transcribe (fun _ => Except.ok ["en-US"])
        { SpeechService.init "k" "westeurope" none none with
          languages_cache := some ["en-US"] }
        { transcriber := none } (some "xx-XX")
      = ({ transcriber := none },
         { SpeechService.init "k" "westeurope" none none with
           languages_cache := some ["en-US"] },
         Except.error (HandlerError.serviceError
           (ServiceError.unsupportedLanguage "xx-XX")))
    ∧ connectionFatal
        (HandlerError.serviceError (ServiceError.unsupportedLanguage "xx-XX")) = false :=
  c4_unsupported_language_is_request_level (fun _ => Except.ok ["en-US"])
    { SpeechService.init "k" "westeurope" none none with
      languages_cache := some ["en-US"] }
    { transcriber := none } "xx-XX" ["en-US"] rfl (by decide)

/-! ## Helper lemmas about the synthesis bridge -/

theorem Synthesizer.runCallbacks_cons (e : SynthCallback) (trace : List SynthCallback)
    (s : AioPushAudioOutputStreamCallback) :
    Synthesizer.runCallbacks (e :: trace) s
      = Synthesizer.runCallbacks trace (Synthesizer.dispatch e s) := rfl

theorem Synthesizer.runCallbacks_append (t1 t2 : List SynthCallback)
    (s : AioPushAudioOutputStreamCallback) :
    Synthesizer.runCallbacks (t1 ++ t2) s
      = Synthesizer.runCallbacks t2 (Synthesizer.runCallbacks t1 s) :=
  List.foldl_append _ _ _ _

theorem Synthesizer.runCallbacks_writes (cs : List Bytes) :
    ∀ s : AioPushAudioOutputStreamCallback,
      Synthesizer.runCallbacks (cs.map SynthCallback.write) s
        = { audio_data := s.audio_data ++ cs.map (fun c => some c) } := by
  induction cs with
  | nil => intro s; cases s; simp [Synthesizer.runCallbacks]
  | cons c rest ih =>
      intro s
      rw [List.map_cons, Synthesizer.runCallbacks_cons]
      rw [show Synthesizer.dispatch (SynthCallback.write c) s
          = AioPushAudioOutputStreamCallback.write c s from rfl]
      rw [ih]
      simp [AioPushAudioOutputStreamCallback.write]

theorem readAll_chunks_then_close (cs : List Bytes) (rest : List (Option Bytes)) :
    AioPushAudioOutputStreamCallback.readAll (cs.map (fun c => some c) ++ none :: rest)
      = some cs := by
  induction cs with
  | nil => simp [AioPushAudioOutputStreamCallback.readAll]
  | cons c t ih => simp [AioPushAudioOutputStreamCallback.readAll, ih]

/-- C5: a handled `Synthesize` with a supported (or defaulted) voice emits
exactly one `AudioStart(16000, 2, 1)`, then one `AudioChunk` per chunk the
engine's `write` callback produced, in emission order, then exactly one
`AudioStop` — for a terminal `completed` as well as a mid-stream `canceled`,
which still enqueues the terminal marker and raises nothing to the
consumer. -/
theorem c5_synthesize_emits_framed_stream (svc : SpeechServiceState) (h : HandlerState)
    (text : String) (voice : Option String) (vs : List String)
    (hsv : svc.supported_voices = some vs)
    (hin : voice.getD svc.default_voice ∈ vs)
    (cs : List Bytes) (term : SynthCallback)
    (hterm : term = SynthCallback.completed ∨ term = SynthCallback.canceled) :
    _synthesize svc h text voice
        (SynthCallback.started :: (cs.map SynthCallback.write ++ [term]))
      = (h, Except.ok (some
          (OutEvent.audioStart 16000 2 1 ::
            cs.map (fun c => OutEvent.audioChunk c 16000 2 1) ++ [OutEvent.audioStop],
           true))) := by
  have hcs : create_synthesizer svc voice
      = Except.ok { voice := voice.getD svc.default_voice } := by
    simp [create_synthesizer, hsv, hin]
  have hrun : Synthesizer.runCallbacks
      (SynthCallback.started :: (cs.map SynthCallback.write ++ [term]))
      AioPushAudioOutputStreamCallback.init
      = { audio_data := cs.map (fun c => some c) ++ [none] } := by
    rw [Synthesizer.runCallbacks_cons]
    rw [show Synthesizer.dispatch SynthCallback.started AioPushAudioOutputStreamCallback.init
        = AioPushAudioOutputStreamCallback.init from rfl]
    rw [Synthesizer.runCallbacks_append, Synthesizer.runCallbacks_writes]
    rcases hterm with h1 | h1 <;> subst h1 <;>
      simp [Synthesizer.runCallbacks, Synthesizer.dispatch,
        AioPushAudioOutputStreamCallback.close, AioPushAudioOutputStreamCallback.init]
  have hread : AioPushAudioOutputStreamCallback.readAll
      (cs.map (fun c => some c) ++ [none]) = some cs :=
    readAll_chunks_then_close cs []
  simp [_synthesize, hcs, hrun, hread]

/-- Witness for C5: two chunks then a mid-stream cancellation still yield the
full framed stream. -/
theorem c5_synthesize_emits_framed_stream_witness :
    _synthesize
        { SpeechService.init "k" "westeurope" none none with
          supported_voices := some ["en-US-AvaMultilingualNeural"] }
        { transcriber := none } "hi" none
        (SynthCallback.started ::
          ([[1, 2], [3]].map SynthCallback.write ++ [SynthCallback.canceled]))
      = ({ transcriber := none }, Except.ok (some
          ([OutEvent.audioStart 16000 2 1, OutEvent.audioChunk [1, 2] 16000 2 1,
            OutEvent.audioChunk [3] 16000 2 1, OutEvent.audioStop], true))) :=
  c5_synthesize_emits_framed_stream
    { SpeechService.init "k" "westeurope" none none with
      supported_voices := some ["en-US-AvaMultilingualNeural"] }
    { transcriber := none } "hi" none ["en-US-AvaMultilingualNeural"] rfl (by decide)
    [[1, 2], [3]] SynthCallback.canceled (Or.inr rfl)

/-- C6: both catalog properties are lazy-init-once memoizations: a
successful access caches the value, and a second access against the
resulting state returns the very same value and state — in particular the
query counters do not move, so no second outbound query happens; a failed
access increments only the query counter and caches nothing (the cache field
is exactly as before, necessarily empty), so the next access retries the
outbound query. -/
theorem c6_catalog_population_memoized (lq : Nat → Except String (List String))
    (vq : Nat → Except String (List VoiceInfo)) (svc : SpeechServiceState) :
    (∀ (v : List String) (svc1 : SpeechServiceState),
      transcription_languages_access lq svc = (Except.ok v, svc1) →
        transcription_languages_access lq svc1 = (Except.ok v, svc1))
    ∧ (∀ (e : String) (svc1 : SpeechServiceState),
      transcription_languages_access lq svc = (Except.error e, svc1) →
        svc1 = { svc with language_queries := svc.language_queries + 1 }
        ∧ svc1.languages_cache = none)
    ∧ (∀ (v : List (String × List VoiceInfo)) (svc1 : SpeechServiceState),
      synthesization_voices_access vq svc = (Except.ok v, svc1) →
        synthesization_voices_access vq svc1 = (Except.ok v, svc1))
    ∧ (∀ (e : String) (svc1 : SpeechServiceState),
      synthesization_voices_access vq svc = (Except.error e, svc1) →
        svc1 = { svc with voice_queries := svc.voice_queries + 1 }
        ∧ svc1.voices_cache = none) := by
  refine ⟨?_, ?_, ?_, ?_⟩
  · intro v svc1 heq
    rcases hc : svc.languages_cache with _ | v0
    · rcases hq : lq svc.language_queries with e0 | v1 <;>
        simp [transcription_languages_access, hc, hq] at heq
      obtain ⟨hv, hsvc⟩ := heq
      subst hv
      subst hsvc
      simp [transcription_languages_access]
    · simp [transcription_languages_access, hc] at heq
      obtain ⟨hv, hsvc⟩ := heq
      subst hv
      subst hsvc
      simp [transcription_languages_access, hc]
  · intro e svc1 heq
    rcases hc : svc.languages_cache with _ | v0
    · rcases hq : lq svc.language_queries with e0 | v1 <;>
        simp [transcription_languages_access, hc, hq] at heq
      obtain ⟨he, hsvc⟩ := heq
      subst hsvc
      refine ⟨?_, ?_⟩ <;> simp [hc]
    · simp [transcription_languages_access, hc] at heq
  · intro v svc1 heq
    rcases hc : svc.voices_cache with _ | v0
    · rcases hq : vq svc.voice_queries with e0 | v1 <;>
        simp [synthesization_voices_access, hc, hq] at heq
      obtain ⟨hv, hsvc⟩ := heq
      subst hv
      subst hsvc
      simp [synthesization_voices_access]
    · simp [synthesization_voices_access, hc] at heq
      obtain ⟨hv, hsvc⟩ := heq
      subst hv
      subst hsvc
      simp [synthesization_voices_access, hc]
  · intro e svc1 heq
    rcases hc : svc.voices_cache with _ | v0
    · rcases hq : vq svc.voice_queries with e0 | v1 <;>
        simp [synthesization_voices_access, hc, hq] at heq
      obtain ⟨he, hsvc⟩ := heq
      subst hsvc
      refine ⟨?_, ?_⟩ <;> simp [hc]
    · simp [synthesization_voices_access, hc] at heq

/-- Witness for C6: a first language-catalog access that succeeds, replayed
against its own resulting state, is a pure cache hit. -/
theorem c6_catalog_population_memoized_witness :
    transcription_languages_access (fun _ => Except.ok ["en-US", "de-DE"])
        { SpeechService.init "k" "westeurope" none none with
          languages_cache := some ["en-US", "de-DE"], language_queries := 1 }
      = (Except.ok ["en-US", "de-DE"],
         { SpeechService.init "k" "westeurope" none none with
           languages_cache := some ["en-US", "de-DE"], language_queries := 1 }) :=
  (c6_catalog_population_memoized (fun _ => Except.ok ["en-US", "de-DE"])
      (fun _ => Except.ok []) (SpeechService.init "k" "westeurope" none none)).1
    ["en-US", "de-DE"]
    { SpeechService.init "k" "westeurope" none none with
      languages_cache := some ["en-US", "de-DE"], language_queries := 1 }
    rfl

/-- C10: an omitted language on `Transcribe` and an omitted voice on
`Synthesize` are substituted with the service's configured defaults — at
construction with omitted arguments these are `en-US` and
`en-US-AvaMultilingualNeural` — and the substituted default passes through
exactly the same catalog validation as an explicit value, failing with the
same unsupported-language/voice error when absent. -/
theorem c10_defaults_substituted_and_validated :
    (∀ (lq : Nat → Except String (List String)) (svc : SpeechServiceState),
      create_transcriber lq svc none
        = create_transcriber lq svc (some svc.default_transcription_language))
    ∧ (∀ svc : SpeechServiceState,
      create_synthesizer svc none = create_synthesizer svc (some svc.default_voice))
    ∧ (∀ key region : String,
      (SpeechService.init key region none none).default_transcription_language = "en-US"
      ∧ (SpeechService.init key region none none).default_voice
          = "en-US-AvaMultilingualNeural")
    ∧ (∀ (lq : Nat → Except String (List String)) (svc : SpeechServiceState)
        (langs : List String),
      svc.languages_cache = some langs →
      svc.default_transcription_language ∉ langs →
      create_transcriber lq svc none
        = (Except.error (ServiceError.unsupportedLanguage
            svc.default_transcription_language), svc))
    ∧ (∀ (svc : SpeechServiceState) (vs : List String),
      svc.supported_voices = some vs →
      svc.default_voice ∉ vs →
      create_synthesizer svc none
        = Except.error (ServiceError.unsupportedVoice svc.default_voice)) := by
  refine ⟨fun lq svc => rfl, fun svc => rfl, fun key region => ⟨rfl, rfl⟩, ?_, ?_⟩
  · intro lq svc langs hcache hnotin
    simp [create_transcriber, transcription_languages_access, hcache, hnotin]
  · intro svc vs hsv hnotin
    simp [create_synthesizer, hsv, hnotin]

/-- Witness for C10: a service whose configured defaults are missing from
the populated catalogs rejects an omitted language and an omitted voice with
the corresponding unsupported errors. -/
theorem c10_defaults_substituted_and_validated_witness :
    create_transcriber (fun _ => Except.ok ["en-US"])
        { SpeechService.init "k" "westeurope" (some "zz-ZZ") (some "zz-ZZ-Nobody") with
          languages_cache := some ["en-US"],
          supported_voices := some ["en-US-AvaMultilingualNeural"] }
        none
      = (Except.error (ServiceError.unsupportedLanguage "zz-ZZ"),
         { SpeechService.init "k" "westeurope" (some "zz-ZZ") (some "zz-ZZ-Nobody") with
           languages_cache := some ["en-US"],
           supported_voices := some ["en-US-AvaMultilingualNeural"] })
    ∧ create_synthesizer
        { SpeechService.init "k" "westeurope" (some "zz-ZZ") (some "zz-ZZ-Nobody") with
          languages_cache := some ["en-US"],
          supported_voices := some ["en-US-AvaMultilingualNeural"] }
        none
      = Except.error (ServiceError.unsupportedVoice "zz-ZZ-Nobody") :=
  ⟨c10_defaults_substituted_and_validated.2.2.2.1 (fun _ => Except.ok ["en-US"])
      { SpeechService.init "k" "westeurope" (some "zz-ZZ") (some "zz-ZZ-Nobody") with
        languages_cache := some ["en-US"],
        supported_voices := some ["en-US-AvaMultilingualNeural"] }
      ["en-US"] rfl (by decide),
   c10_defaults_substituted_and_validated.2.2.2.2
      { SpeechService.init "k" "westeurope" (some "zz-ZZ") (some "zz-ZZ-Nobody") with
        languages_cache := some ["en-US"],
        supported_voices := some ["en-US-AvaMultilingualNeural"] }
      ["en-US-AvaMultilingualNeural"] rfl (by decide)⟩

end WyomingAzureSpeech
